import Mathlib

/-!
Verification of the voice-agent turn-loop client (`script.js` and its earlier
revision) against its specification.  The browser code is shallowly embedded:
the global mutable variables of the script become fields of an explicit
`TabState`, every asynchronous callback (click handler, `getUserMedia`
resolution, `MediaRecorder` events, `fetch` resolution, audio `ended`,
WebSocket events) becomes a constructor of an `Event` type, and the script's
handler bodies are transcribed into one `step` function.
-/

namespace VoiceAgent

/-- JavaScript truthiness of a nullable string: `null`/`undefined` (here `none`)
and the empty string are falsy, every other string is truthy. -/
def truthy : Option String → Bool
  | none => false
  | some s => decide (s ≠ "")

/-- JavaScript `a || b` for a nullable string `a` with a string fallback `b`. -/
def orElseStr (a : Option String) (b : String) : String :=
  match a with
  | none => b
  | some s => if s = "" then b else s

lemma orElseStr_falsy (a : Option String) (b : String) (h : truthy a = false) :
    orElseStr a b = b := by
  cases a with
  | none => rfl
  | some s =>
    simp only [truthy, decide_eq_false_iff_not, not_not] at h
    simp [orElseStr, h]

/-- A URL query string (`window.location.search`), as the ordered list of
key/value pairs held by a `URLSearchParams` object. -/
def Query : Type := List (String × String)

/-- `URLSearchParams.get`: the value of the first pair with the given key,
or `null` when the key is absent. -/
def getParam (q : Query) (k : String) : Option String :=
  (List.find? (fun p => p.1 = k) q).map (fun p => p.2)

/-- `URLSearchParams.delete`: drop every pair with the given key. -/
def removeParam (q : Query) (k : String) : Query :=
  List.filter (fun p => ¬ (p.1 = k)) q

/-- `URLSearchParams.set`: replace the value of the first pair with the given
key (deleting any later duplicates), or append the pair when the key is
absent. -/
def setParam : Query → String → String → Query
  | [], k, v => [(k, v)]
  | (k0, v0) :: rest, k, v =>
    if k0 = k then (k, v) :: removeParam rest k
    else (k0, v0) :: setParam rest k v

/-- `ensureSessionId()` from `script.js` lines 2-13: read `session_id` from the
query; if it is absent or falsy, synthesize `Date.now().toString()` (the clock
value is the `now` argument), write it back via `history.replaceState`, and
return it.  The returned pair is (session id, updated navigational context). -/
def ensureSessionId (q : Query) (now : Nat) : String × Query :=
  let id0 := getParam q "session_id"
  if truthy id0 then (id0.getD "", q)
  else
    let id := Nat.repr now
    (id, setParam q "session_id" id)

lemma getParam_setParam (q : Query) (k v : String) :
    getParam (setParam q k v) k = some v := by
  induction q with
  | nil => simp [setParam, getParam, List.find?]
  | cons p rest ih =>
    obtain ⟨k0, v0⟩ := p
    by_cases h : k0 = k
    · simp [setParam, h, getParam, List.find?]
    · simp only [setParam, if_neg h]
      simpa [getParam, List.find?, h] using ih

lemma toDigitsCore_length_le (b : Nat) :
    ∀ (f n : Nat) (ds : List Char), ds.length ≤ (Nat.toDigitsCore b f n ds).length := by
  intro f
  induction f with
  | zero => intro n ds; simp [Nat.toDigitsCore]
  | succ f ih =>
    intro n ds
    simp only [Nat.toDigitsCore]
    split
    · simp
    · exact Nat.le_trans (by simp) (ih (n / b) (Nat.digitChar (n % b) :: ds))

lemma toDigits_ne_nil (b n : Nat) : Nat.toDigits b n ≠ [] := by
  unfold Nat.toDigits
  simp only [Nat.toDigitsCore]
  split
  · simp
  · intro h
    have h1 := toDigitsCore_length_le b n (n / b) (Nat.digitChar (n % b) :: [])
    rw [h] at h1
    simp at h1

lemma repr_ne_empty (n : Nat) : Nat.repr n ≠ "" := by
  intro h
  have hd : (Nat.toDigits 10 n) = [] := by
    have := congrArg String.data h
    simpa [Nat.repr, List.asString] using this
  exact toDigits_ne_nil 10 n hd

/-- C6: `ensureSessionId` is idempotent within a tab: a second call (at any
later clock value) returns the same key and leaves the navigational context
unchanged, whether the first call read the key or synthesized and wrote it. -/
theorem C6_ensureSessionId_idempotent (q : Query) (t1 t2 : Nat) :
    ensureSessionId (ensureSessionId q t1).2 t2 =
      ((ensureSessionId q t1).1, (ensureSessionId q t1).2) := by
  by_cases h : truthy (getParam q "session_id") = true
  · simp [ensureSessionId, h]
  · have hW : getParam (setParam q "session_id" (Nat.repr t1)) "session_id"
        = some (Nat.repr t1) := getParam_setParam q "session_id" (Nat.repr t1)
    simp only [ensureSessionId, h, if_neg, Bool.not_eq_true] at *
    simp [ensureSessionId, hW, truthy, repr_ne_empty t1, h]

/-- The four per-service credential overrides read from `localStorage`
(`script.js` lines 73-78); `localStorage.getItem(k) || ""` makes an
unconfigured key the empty string. -/
structure ApiKeys where
  assemblyai : String
  gemini : String
  murf : String
  tavily : String
deriving Repr, DecidableEq

/-- The `FormData` built in `mediaRecorder.onstop` (`script.js` lines 66-82):
the audio file, the two toggle flags serialized as "1"/"0", and one
`*_api_key` field per credential that is configured (truthy). -/
def buildFormData (fileName : String) (concise webSearch : Bool) (k : ApiKeys) :
    List (String × String) :=
  [("file", fileName),
   ("concise", if concise then "1" else "0"),
   ("web_search", if webSearch then "1" else "0")]
  ++ (if k.assemblyai = "" then [] else [("assemblyai_api_key", k.assemblyai)])
  ++ (if k.gemini = "" then [] else [("gemini_api_key", k.gemini)])
  ++ (if k.murf = "" then [] else [("murf_api_key", k.murf)])
  ++ (if k.tavily = "" then [] else [("tavily_api_key", k.tavily)])

/-- Structured error body of a non-success `/agent/chat` response, as read by
`fetchJson` (earlier revision, lines 89-98): optional `error`, `stage` and
`detail` fields. -/
structure ErrorBody where
  error : Option String
  stage : Option String
  detail : Option String
deriving Repr, DecidableEq

/-- The failure message computed by `fetchJson` for a non-ok response:
`(data && (data.error || data.stage || data.detail)) || status statusText`.
`body = none` is a response whose body did not parse as JSON. -/
def fetchJsonErrMsg (body : Option ErrorBody) (status : Nat) (statusText : String) :
    String :=
  let fromBody : Option String :=
    match body with
    | none => none
    | some b =>
      if truthy b.error then b.error
      else if truthy b.stage then b.stage
      else if truthy b.detail then b.detail
      else none
  match fromBody with
  | some m => m
  | none => Nat.repr status ++ " " ++ statusText

/-- The JSON body of a `/agent/chat` response as read by
`mediaRecorder.onstop` (`script.js` lines 85-94): `res.ok`, and the `error`,
`llm_text` and `audio_url` fields of `js`. -/
structure ChatResponse where
  ok : Bool
  error : Option String
  llm_text : Option String
  audio_url : Option String
deriving Repr, DecidableEq

/-- A message arriving on the `/ws/transcribe` WebSocket, after the
`JSON.parse` attempt of `turnSocket.onmessage`: either not JSON at all, a
falsy JSON value (for example `null`), or a JSON object with its optional
`type` and `transcript` string fields and the truthiness of its
`end_of_turn` field. -/
inductive WsPayload where
  | notJson
  | jsonFalsy
  | jsonObj (type_ : Option String) (end_of_turn : Bool) (transcript : Option String)
deriving Repr, DecidableEq

/-- The asynchronous callbacks of `script.js`, as events fed to the state
machine: the record-button click, resolution or rejection of the pending
`getUserMedia` call, `MediaRecorder` `dataavailable` and `stop` events, the
resolution (with parsed body) or transport rejection of the `/agent/chat`
fetch, the `ended` event of the reply audio element, `DOMContentLoaded`
(which runs `initTurnSocket`), and the WebSocket callbacks. -/
inductive Event where
  | click
  | micGranted
  | micDenied
  | recorderData (frag : List Nat)
  | recorderStopped
  | fetchResolved (resp : ChatResponse)
  | fetchRejected
  | playbackEnded
  | pageLoad
  | wsOpen
  | wsMessage (p : WsPayload)
  | wsError
  | wsClose
deriving Repr, DecidableEq

/-- The tab's mutable state: the script's global variables plus the
observable resources they control.  `micPending` counts unresolved
`getUserMedia` calls issued by `startRecording`; `currentLive` says whether
the recorder currently referenced by the `mediaRecorder` variable is
recording; `orphanedLive` counts recorders that were still recording when the
variable was overwritten (they can never be stopped again); `stopsPending`
counts recorders whose `stop()` was called but whose `onstop` callback has not
yet run; `lastBlob` is the artifact built by the last `onstop`;
`onendedResume` says whether `aiAudio.onended` currently holds the
auto-resume closure; `socketOpens` counts `new WebSocket` constructions. -/
structure TabState where
  isRecording : Bool
  micPending : Nat
  currentLive : Bool
  orphanedLive : Nat
  stopsPending : Nat
  chunks : List (List Nat)
  lastBlob : Option (List Nat)
  exchanging : Bool
  onendedResume : Bool
  audioSrc : Option String
  messages : List (String × String)
  statusText : String
  turnLog : List String
  socketOpens : Nat
deriving Repr, DecidableEq

/-- The state of the tab when the script has just loaded. -/
def initState : TabState :=
  { isRecording := false, micPending := 0, currentLive := false,
    orphanedLive := 0, stopsPending := 0, chunks := [], lastBlob := none,
    exchanging := false, onendedResume := false, audioSrc := none,
    messages := [], statusText := "", turnLog := [], socketOpens := 0 }

/-- The fixed text shown by the `catch` block of `mediaRecorder.onstop`
(`script.js` line 100) for every failed exchange. -/
def fixedErrorMsg : String :=
  "I\x27m having trouble connecting right now. Please try again."

/-- One transition of the tab, transcribing the handler bodies of
`script.js`:

* `click` (lines 129-131): toggle — `stopRecording()` when `isRecording`,
  else `startRecording()`, whose first await is `getUserMedia`;
* `micGranted` (lines 52-58, 106-110): a fresh `MediaRecorder` is created
  (overwriting the variable, orphaning a still-recording one), `chunks` is
  reset and recording starts;
* `micDenied` (lines 112-114): only a toast is shown;
* `recorderData` (lines 56-58): a fragment is pushed only when non-empty;
* `recorderStopped` (lines 60-84): the blob is built from `chunks`, the
  optimistic bubble is appended and the `/agent/chat` fetch goes in flight;
* `fetchResolved` (lines 85-103): on `ok`, the reply text (or placeholder)
  is shown, the reply audio (or fallback) is played, and `aiAudio.onended`
  is set to the auto-resume closure; on not-ok, the thrown error lands in
  the `catch`, which shows the fixed message and plays the fallback;
* `fetchRejected` (lines 99-103): same `catch` path;
* `playbackEnded` (lines 95-98): runs `aiAudio.onended` if it is set, which
  calls `startRecording()`;
* `pageLoad` (lines 148-195): `initTurnSocket` constructs the WebSocket;
* `wsMessage` (lines 157-179): non-JSON and falsy/non-matching payloads are
  ignored; a `type:"turn"` payload with truthy `end_of_turn` appends the
  transcript (or placeholder) to the turn log;
* `wsOpen`/`wsError`/`wsClose` (lines 153-189): logging only. -/
def step (s : TabState) : Event → TabState
  | .click =>
    if s.isRecording then
      if s.currentLive then
        { s with isRecording := false, currentLive := false,
                 stopsPending := s.stopsPending + 1,
                 statusText := "Thinking…" }
      else
        { s with isRecording := false, statusText := "Thinking…" }
    else
      { s with micPending := s.micPending + 1 }
  | .micGranted =>
    if s.micPending = 0 then s
    else
      { s with micPending := s.micPending - 1,
               orphanedLive := s.orphanedLive + (if s.currentLive then 1 else 0),
               currentLive := true,
               isRecording := true,
               chunks := [],
               statusText := "Listening… tap to stop" }
  | .micDenied =>
    if s.micPending = 0 then s
    else { s with micPending := s.micPending - 1 }
  | .recorderData frag =>
    if frag.length = 0 then s else { s with chunks := s.chunks ++ [frag] }
  | .recorderStopped =>
    if s.stopsPending = 0 then s
    else
      { s with stopsPending := s.stopsPending - 1,
               lastBlob := some s.chunks.flatten,
               messages := s.messages ++ [("right", "(captured voice)")],
               exchanging := true }
  | .fetchResolved resp =>
    if s.exchanging then
      if resp.ok then
        { s with exchanging := false,
                 messages := s.messages ++
                   [("left", orElseStr resp.llm_text "(no response)")],
                 audioSrc := some (orElseStr resp.audio_url "/static/fallback.mp3"),
                 onendedResume := true }
      else
        { s with exchanging := false,
                 messages := s.messages ++ [("left", fixedErrorMsg)],
                 audioSrc := some "/static/fallback.mp3" }
    else s
  | .fetchRejected =>
    if s.exchanging then
      { s with exchanging := false,
               messages := s.messages ++ [("left", fixedErrorMsg)],
               audioSrc := some "/static/fallback.mp3" }
    else s
  | .playbackEnded =>
    if s.onendedResume then { s with micPending := s.micPending + 1 } else s
  | .pageLoad =>
    { s with socketOpens := s.socketOpens + 1 }
  | .wsOpen => s
  | .wsMessage p =>
    match p with
    | .notJson => s
    | .jsonFalsy => s
    | .jsonObj t eot tr =>
      if t = some "turn" then
        if eot then
          { s with turnLog := s.turnLog ++ [orElseStr tr "(no transcript)"] }
        else s
      else s
  | .wsError => s
  | .wsClose => s

/-- Run the tab over a sequence of events. -/
def run (s : TabState) (events : List Event) : TabState :=
  List.foldl step s events

/-- The number of capture sessions (recording `MediaRecorder` instances,
each holding a live microphone stream) that exist at once. -/
def liveCaptures (s : TabState) : Nat :=
  s.orphanedLive + (if s.currentLive then 1 else 0)

/-- A successful `/agent/chat` response, as in spec Scenario A. -/
def okResp : ChatResponse :=
  { ok := true, error := none, llm_text := some "hi there",
    audio_url := some "https://x/reply.mp3" }

/-- A failed `/agent/chat` response carrying a quota message. -/
def errResp : ChatResponse :=
  { ok := false, error := some "quota exceeded", llm_text := none,
    audio_url := none }

/-- A failed `/agent/chat` response whose error text names the failed stage. -/
def errResp2 : ChatResponse :=
  { ok := false, error := some "synthesize: quota exceeded", llm_text := none,
    audio_url := none }

/-- C1 (counterexample): the invariant and its claimed enforcement both
fail.  A second click before the microphone permission resolves — gestures
alone — leaves TWO live capture sessions, since `isRecording` becomes true
only when `getUserMedia` resolves and each resolution starts a fresh
recorder, orphaning the previous one; a gesture during reply playback
followed by the auto-resume closure firing does the same; and the click
during a pending fetch is not refused (it issues a new `getUserMedia`
request rather than being ignored). -/
theorem C1_counterexample :
    liveCaptures (run initState
      [Event.click, Event.click, Event.micGranted, Event.micGranted]) = 2 ∧
    liveCaptures (run initState
      [Event.click, Event.micGranted, Event.click, Event.recorderStopped,
       Event.fetchResolved okResp, Event.click, Event.micGranted,
       Event.playbackEnded, Event.micGranted]) = 2 ∧
    (run initState [Event.click, Event.micGranted, Event.click,
       Event.recorderStopped]).exchanging = true ∧
    (step (run initState [Event.click, Event.micGranted, Event.click,
       Event.recorderStopped]) Event.click).micPending =
      (run initState [Event.click, Event.micGranted, Event.click,
       Event.recorderStopped]).micPending + 1 := by
  decide

/-- C1 (amended): the only capture-exclusion guard is the gesture toggle —
a start/stop gesture while a capture is live (the recording flag is set)
stops that capture instead of opening a second one and issues no new device
request.  Nothing else is refused: a start that runs while the flag is down
(permission still pending, exchange pending, reply playing) acquires anew,
so two capture sessions can be live at once, even from gestures alone. -/
theorem C1_gesture_while_capturing_stops (s : TabState)
    (h : s.isRecording = true) :
    (step s Event.click).micPending = s.micPending ∧
    (step s Event.click).isRecording = false ∧
    (step s Event.click).orphanedLive = s.orphanedLive ∧
    (step s Event.click).currentLive = false := by
  by_cases hc : s.currentLive <;> simp [step, h, hc]

/-- C1 witness: the amended theorem applied to the state reached after one
start gesture and a granted microphone. -/
theorem C1_gesture_while_capturing_stops_witness :
    (run initState [Event.click, Event.micGranted]).isRecording = true ∧
    ((step (run initState [Event.click, Event.micGranted]) Event.click).micPending =
        (run initState [Event.click, Event.micGranted]).micPending ∧
      (step (run initState [Event.click, Event.micGranted]) Event.click).isRecording = false ∧
      (step (run initState [Event.click, Event.micGranted]) Event.click).orphanedLive =
        (run initState [Event.click, Event.micGranted]).orphanedLive ∧
      (step (run initState [Event.click, Event.micGranted]) Event.click).currentLive = false) :=
  ⟨by decide,
   C1_gesture_while_capturing_stops (run initState [Event.click, Event.micGranted])
     (by decide)⟩

/-- C2 (counterexample): after a first successful turn installs the
auto-resume closure on `aiAudio.onended`, a second turn that FAILS still
auto-resumes: when its fallback audio finishes, the stale closure fires and
starts a new capture (`micPending` goes from 0 to 1). -/
theorem C2_counterexample :
    (run initState
      [Event.click, Event.micGranted, Event.click, Event.recorderStopped,
       Event.fetchResolved okResp, Event.playbackEnded, Event.micGranted,
       Event.click, Event.recorderStopped, Event.fetchResolved errResp]).audioSrc
      = some "/static/fallback.mp3" ∧
    (run initState
      [Event.click, Event.micGranted, Event.click, Event.recorderStopped,
       Event.fetchResolved okResp, Event.playbackEnded, Event.micGranted,
       Event.click, Event.recorderStopped, Event.fetchResolved errResp]).micPending = 0 ∧
    (run initState
      [Event.click, Event.micGranted, Event.click, Event.recorderStopped,
       Event.fetchResolved okResp, Event.playbackEnded, Event.micGranted,
       Event.click, Event.recorderStopped, Event.fetchResolved errResp,
       Event.playbackEnded]).micPending = 1 := by
  decide

/-- C2 (amended): a failed turn does not itself install the auto-resume
closure, so as long as no earlier successful turn has installed it, a failed
turn ends idle: the fallback playback finishing changes nothing and a new
user gesture is required. -/
theorem C2_failure_no_resume_handler (s : TabState) (resp : ChatResponse)
    (hex : s.exchanging = true) (hok : resp.ok = false)
    (hres : s.onendedResume = false) :
    (step s (Event.fetchResolved resp)).onendedResume = false ∧
    step (step s (Event.fetchResolved resp)) Event.playbackEnded =
      step s (Event.fetchResolved resp) ∧
    (step s Event.fetchRejected).onendedResume = false ∧
    step (step s Event.fetchRejected) Event.playbackEnded =
      step s Event.fetchRejected := by
  simp [step, hex, hok, hres]

/-- C2 witness: the amended theorem applied to a first turn that fails. -/
theorem C2_failure_no_resume_handler_witness :
    (run initState [Event.click, Event.micGranted, Event.click,
        Event.recorderStopped]).exchanging = true ∧
    ((step (run initState [Event.click, Event.micGranted, Event.click,
          Event.recorderStopped]) (Event.fetchResolved errResp)).onendedResume = false ∧
      step (step (run initState [Event.click, Event.micGranted, Event.click,
          Event.recorderStopped]) (Event.fetchResolved errResp)) Event.playbackEnded =
        step (run initState [Event.click, Event.micGranted, Event.click,
          Event.recorderStopped]) (Event.fetchResolved errResp) ∧
      (step (run initState [Event.click, Event.micGranted, Event.click,
          Event.recorderStopped]) Event.fetchRejected).onendedResume = false ∧
      step (step (run initState [Event.click, Event.micGranted, Event.click,
          Event.recorderStopped]) Event.fetchRejected) Event.playbackEnded =
        step (run initState [Event.click, Event.micGranted, Event.click,
          Event.recorderStopped]) Event.fetchRejected) :=
  ⟨by decide,
   C2_failure_no_resume_handler
     (run initState [Event.click, Event.micGranted, Event.click, Event.recorderStopped])
     errResp (by decide) (by decide) (by decide)⟩

/-- C3 (counterexample): a failed turn whose error text is
"synthesize: quota exceeded" presents only the fixed connection-trouble
message — the failure's stage and message appear nowhere in the presented
messages, so the reporting half of the claim fails (the fallback-playback
half does hold). -/
theorem C3_counterexample :
    (run initState [Event.click, Event.micGranted, Event.click,
       Event.recorderStopped, Event.fetchResolved errResp2]).messages
      = [("right", "(captured voice)"), ("left", fixedErrorMsg)] ∧
    (run initState [Event.click, Event.micGranted, Event.click,
       Event.recorderStopped, Event.fetchResolved errResp2]).audioSrc
      = some "/static/fallback.mp3" ∧
    fixedErrorMsg ≠ "synthesize: quota exceeded" := by
  decide

/-- C3 (amended): every failed exchange — whatever its stage or message, and
also on transport rejection — plays the fixed local fallback asset and
appends the same fixed connection-trouble message; the failure's specific
stage and message are not surfaced. -/
theorem C3_failure_fallback_fixed_message (s : TabState) (resp : ChatResponse)
    (hex : s.exchanging = true) (hok : resp.ok = false) :
    (step s (Event.fetchResolved resp)).audioSrc = some "/static/fallback.mp3" ∧
    (step s (Event.fetchResolved resp)).messages =
      s.messages ++ [("left", fixedErrorMsg)] ∧
    (step s Event.fetchRejected).audioSrc = some "/static/fallback.mp3" ∧
    (step s Event.fetchRejected).messages =
      s.messages ++ [("left", fixedErrorMsg)] := by
  simp [step, hex, hok]

/-- C3 witness: the amended theorem applied to the pending-exchange state
and the quota failure. -/
theorem C3_failure_fallback_fixed_message_witness :
    (run initState [Event.click, Event.micGranted, Event.click,
        Event.recorderStopped]).exchanging = true ∧
    ((step (run initState [Event.click, Event.micGranted, Event.click,
          Event.recorderStopped]) (Event.fetchResolved errResp)).audioSrc =
        some "/static/fallback.mp3" ∧
      (step (run initState [Event.click, Event.micGranted, Event.click,
          Event.recorderStopped]) (Event.fetchResolved errResp)).messages =
        (run initState [Event.click, Event.micGranted, Event.click,
          Event.recorderStopped]).messages ++ [("left", fixedErrorMsg)] ∧
      (step (run initState [Event.click, Event.micGranted, Event.click,
          Event.recorderStopped]) Event.fetchRejected).audioSrc =
        some "/static/fallback.mp3" ∧
      (step (run initState [Event.click, Event.micGranted, Event.click,
          Event.recorderStopped]) Event.fetchRejected).messages =
        (run initState [Event.click, Event.micGranted, Event.click,
          Event.recorderStopped]).messages ++ [("left", fixedErrorMsg)]) :=
  ⟨by decide,
   C3_failure_fallback_fixed_message
     (run initState [Event.click, Event.micGranted, Event.click, Event.recorderStopped])
     errResp (by decide) (by decide)⟩

/-- C4 (counterexample): a non-ok response whose body is
`stage:"synthesize", detail:"quota exceeded"` yields the single message
"synthesize": the `stage` value is used AS the message and the `detail`
text is dropped, rather than returning stage "synthesize" with message
"quota exceeded" as the claim states. -/
theorem C4_counterexample :
    fetchJsonErrMsg
      (some { error := none, stage := some "synthesize",
              detail := some "quota exceeded" }) 502 "Bad Gateway"
      = "synthesize" ∧
    ("synthesize" : String) ≠ "quota exceeded" := by
  decide

/-- C4 (amended): on a non-success response the exchange fails with one
message only — the first truthy of the body's `error`, `stage`, `detail`
fields, or `status statusText` synthesized from the status code when all are
absent (or when the body is not JSON); no separate stage value is returned. -/
theorem C4_errmsg_first_present (b : ErrorBody) (status : Nat) (st : String) :
    (truthy b.error = true →
      fetchJsonErrMsg (some b) status st = b.error.getD "") ∧
    (truthy b.error = false → truthy b.stage = true →
      fetchJsonErrMsg (some b) status st = b.stage.getD "") ∧
    (truthy b.error = false → truthy b.stage = false → truthy b.detail = true →
      fetchJsonErrMsg (some b) status st = b.detail.getD "") ∧
    (truthy b.error = false → truthy b.stage = false → truthy b.detail = false →
      fetchJsonErrMsg (some b) status st = Nat.repr status ++ " " ++ st) ∧
    fetchJsonErrMsg none status st = Nat.repr status ++ " " ++ st := by
  refine ⟨?_, ?_, ?_, ?_, ?_⟩
  · intro h1
    cases hb : b.error with
    | none => rw [hb] at h1; simp [truthy] at h1
    | some v => rw [hb] at h1; simp [fetchJsonErrMsg, h1, hb]
  · intro h1 h2
    cases hb : b.stage with
    | none => rw [hb] at h2; simp [truthy] at h2
    | some v => rw [hb] at h2; simp [fetchJsonErrMsg, h1, h2, hb]
  · intro h1 h2 h3
    cases hb : b.detail with
    | none => rw [hb] at h3; simp [truthy] at h3
    | some v => rw [hb] at h3; simp [fetchJsonErrMsg, h1, h2, h3, hb]
  · intro h1 h2 h3
    simp [fetchJsonErrMsg, h1, h2, h3]
  · simp [fetchJsonErrMsg]

/-- C4 witness: the amended theorem applied to a body carrying all three
fields — the `error` field wins. -/
theorem C4_errmsg_first_present_witness :
    truthy (some "boom") = true ∧
    fetchJsonErrMsg
      (some { error := some "boom", stage := some "synthesize",
              detail := some "quota" }) 500 "Internal Server Error" = "boom" :=
  ⟨by decide,
   (C4_errmsg_first_present
     { error := some "boom", stage := some "synthesize", detail := some "quota" }
     500 "Internal Server Error").1 (by decide)⟩

/-- C5: a turn request with `concise=true`, `web_search=false` and no
configured credentials serializes to exactly the file plus the two flags as
"1"/"0"; and in general each per-service credential field is present in the
submission if and only if that credential is configured (non-empty). -/
theorem C5_formdata_flags_and_credentials :
    (∀ f : String,
      buildFormData f true false { assemblyai := "", gemini := "", murf := "", tavily := "" } =
        [("file", f), ("concise", "1"), ("web_search", "0")]) ∧
    (∀ (f : String) (c w : Bool) (k : ApiKeys),
      (("concise", if c then "1" else "0") ∈ buildFormData f c w k) ∧
      (("web_search", if w then "1" else "0") ∈ buildFormData f c w k) ∧
      ("assemblyai_api_key" ∈ (buildFormData f c w k).map Prod.fst ↔
        ¬ k.assemblyai = "") ∧
      ("gemini_api_key" ∈ (buildFormData f c w k).map Prod.fst ↔
        ¬ k.gemini = "") ∧
      ("murf_api_key" ∈ (buildFormData f c w k).map Prod.fst ↔
        ¬ k.murf = "") ∧
      ("tavily_api_key" ∈ (buildFormData f c w k).map Prod.fst ↔
        ¬ k.tavily = "")) := by
  constructor
  · intro f; simp [buildFormData]
  · intro f c w k
    refine ⟨?_, ?_, ?_, ?_, ?_, ?_⟩ <;>
      by_cases h1 : k.assemblyai = "" <;> by_cases h2 : k.gemini = "" <;>
      by_cases h3 : k.murf = "" <;> by_cases h4 : k.tavily = "" <;>
      simp [buildFormData, h1, h2, h3, h4]

/-- C7: on a success response, a missing `llm_text` is presented as the
"(no response)" placeholder, a missing `audio_url` plays the fixed local
fallback asset, and the turn still completes the normal speaking path: the
reply audio source is set, the auto-resume closure is installed, and the
exchange is over. -/
theorem C7_success_defaults (s : TabState) (resp : ChatResponse)
    (hex : s.exchanging = true) (hok : resp.ok = true) :
    (truthy resp.llm_text = false →
      (step s (Event.fetchResolved resp)).messages =
        s.messages ++ [("left", "(no response)")]) ∧
    (truthy resp.audio_url = false →
      (step s (Event.fetchResolved resp)).audioSrc = some "/static/fallback.mp3") ∧
    (step s (Event.fetchResolved resp)).audioSrc =
      some (orElseStr resp.audio_url "/static/fallback.mp3") ∧
    (step s (Event.fetchResolved resp)).onendedResume = true ∧
    (step s (Event.fetchResolved resp)).exchanging = false := by
  refine ⟨?_, ?_, ?_, ?_, ?_⟩
  · intro h; simp [step, hex, hok, orElseStr_falsy resp.llm_text _ h]
  · intro h; simp [step, hex, hok, orElseStr_falsy resp.audio_url _ h]
  · simp [step, hex, hok]
  · simp [step, hex, hok]
  · simp [step, hex, hok]

/-- C7 witness: the theorem applied to a success response with both fields
absent, in the pending-exchange state. -/
theorem C7_success_defaults_witness :
    (run initState [Event.click, Event.micGranted, Event.click,
        Event.recorderStopped]).exchanging = true ∧
    (ChatResponse.mk true none none none).ok = true ∧
    ((truthy (ChatResponse.mk true none none none).llm_text = false →
      (step (run initState [Event.click, Event.micGranted, Event.click,
          Event.recorderStopped])
        (Event.fetchResolved (ChatResponse.mk true none none none))).messages =
        (run initState [Event.click, Event.micGranted, Event.click,
          Event.recorderStopped]).messages ++ [("left", "(no response)")]) ∧
     (truthy (ChatResponse.mk true none none none).audio_url = false →
      (step (run initState [Event.click, Event.micGranted, Event.click,
          Event.recorderStopped])
        (Event.fetchResolved (ChatResponse.mk true none none none))).audioSrc =
        some "/static/fallback.mp3") ∧
     (step (run initState [Event.click, Event.micGranted, Event.click,
          Event.recorderStopped])
        (Event.fetchResolved (ChatResponse.mk true none none none))).audioSrc =
        some (orElseStr (ChatResponse.mk true none none none).audio_url
          "/static/fallback.mp3") ∧
     (step (run initState [Event.click, Event.micGranted, Event.click,
          Event.recorderStopped])
        (Event.fetchResolved (ChatResponse.mk true none none none))).onendedResume = true ∧
     (step (run initState [Event.click, Event.micGranted, Event.click,
          Event.recorderStopped])
        (Event.fetchResolved (ChatResponse.mk true none none none))).exchanging = false) :=
  ⟨by decide, by decide,
   C7_success_defaults
     (run initState [Event.click, Event.micGranted, Event.click, Event.recorderStopped])
     (ChatResponse.mk true none none none) (by decide) (by decide)⟩

/-- The portion of the tab state owned by the main conversational loop
(everything except the advisory turn log). -/
def mainLoopView (s : TabState) :
    Bool × Nat × Bool × Nat × Nat × List (List Nat) × Option (List Nat) ×
      Bool × Bool × Option String × List (String × String) × String × Nat :=
  (s.isRecording, s.micPending, s.currentLive, s.orphanedLive, s.stopsPending,
   s.chunks, s.lastBlob, s.exchanging, s.onendedResume, s.audioSrc,
   s.messages, s.statusText, s.socketOpens)

lemma append_singleton_ne (l : List String) (x : String) : l ++ [x] ≠ l := by
  intro h
  have hlen := congrArg List.length h
  simp at hlen

/-- C8: a Turn Signal Channel message runs the boundary handling (appends to
the turn log) exactly when it parses as JSON to an object with
`type:"turn"` and a truthy `end_of_turn`; every other payload — non-JSON,
falsy JSON, wrong or missing type, false `end_of_turn` — is silently
ignored, and in every case the main loop's state is unchanged. -/
theorem C8_ws_message_filter (s : TabState) (p : WsPayload) :
    mainLoopView (step s (Event.wsMessage p)) = mainLoopView s ∧
    ((step s (Event.wsMessage p)).turnLog ≠ s.turnLog ↔
      ∃ tr, p = WsPayload.jsonObj (some "turn") true tr) := by
  cases p with
  | notJson => simp [step]
  | jsonFalsy => simp [step]
  | jsonObj t eot tr =>
    constructor
    · by_cases ht : t = some "turn" <;> cases eot <;>
        simp [step, mainLoopView, ht]
    · by_cases ht : t = some "turn"
      · cases eot
        · simp [step, ht]
        · simp [step, ht, append_singleton_ne]
      · simp [step, ht]

lemma step_socketOpens (s : TabState) (e : Event) :
    (step s e).socketOpens = s.socketOpens ∨ e = Event.pageLoad := by
  cases e with
  | click =>
    left
    by_cases h : s.isRecording
    · by_cases hc : s.currentLive <;> simp [step, h, hc]
    · simp [step, h]
  | micGranted => left; by_cases h : s.micPending = 0 <;> simp [step, h]
  | micDenied => left; by_cases h : s.micPending = 0 <;> simp [step, h]
  | recorderData frag => left; by_cases h : frag.length = 0 <;> simp [step, h]
  | recorderStopped => left; by_cases h : s.stopsPending = 0 <;> simp [step, h]
  | fetchResolved resp =>
    left
    by_cases h : s.exchanging
    · by_cases ho : resp.ok <;> simp [step, h, ho]
    · simp [step, h]
  | fetchRejected => left; by_cases h : s.exchanging <;> simp [step, h]
  | playbackEnded => left; by_cases h : s.onendedResume <;> simp [step, h]
  | pageLoad => right; rfl
  | wsOpen => left; rfl
  | wsMessage p =>
    left
    cases p with
    | notJson => rfl
    | jsonFalsy => rfl
    | jsonObj t eot tr =>
      by_cases ht : t = some "turn"
      · cases eot <;> simp [step, ht]
      · simp [step, ht]
  | wsError => left; rfl
  | wsClose => left; rfl

lemma run_socketOpens (trace : List Event) :
    ∀ s : TabState, Event.pageLoad ∉ trace →
      (run s trace).socketOpens = s.socketOpens := by
  induction trace with
  | nil => intro s _; rfl
  | cons e rest ih =>
    intro s h
    have hne : e ≠ Event.pageLoad := fun he => h (by simp [he])
    have hrest : Event.pageLoad ∉ rest := fun hr => h (List.mem_cons_of_mem _ hr)
    have hstep : (step s e).socketOpens = s.socketOpens :=
      (step_socketOpens s e).resolve_right hne
    calc (run s (e :: rest)).socketOpens
        = (run (step s e) rest).socketOpens := rfl
      _ = (step s e).socketOpens := ih (step s e) hrest
      _ = s.socketOpens := hstep

/-- C9: the channel-closed handler is a no-op on the tab state, and after a
close — whatever caused it — no later sequence of events opens a new channel
connection, since only the page-load event (which fires once, at load)
constructs a WebSocket. -/
theorem C9_no_reconnect_after_close (s : TabState) (trace : List Event)
    (h : Event.pageLoad ∉ trace) :
    step s Event.wsClose = s ∧
    (run (step s Event.wsClose) trace).socketOpens = s.socketOpens :=
  ⟨rfl, run_socketOpens trace s h⟩

/-- C9 witness: after load and a close, a burst of clicks, socket errors and
messages opens no new connection. -/
theorem C9_no_reconnect_after_close_witness :
    Event.pageLoad ∉ [Event.wsClose, Event.click, Event.wsError,
      Event.wsMessage WsPayload.notJson, Event.playbackEnded] ∧
    (step (run initState [Event.pageLoad, Event.wsClose]) Event.wsClose =
        run initState [Event.pageLoad, Event.wsClose] ∧
      (run (step (run initState [Event.pageLoad, Event.wsClose]) Event.wsClose)
        [Event.wsClose, Event.click, Event.wsError,
         Event.wsMessage WsPayload.notJson, Event.playbackEnded]).socketOpens =
        (run initState [Event.pageLoad, Event.wsClose]).socketOpens) :=
  ⟨by decide,
   C9_no_reconnect_after_close (run initState [Event.pageLoad, Event.wsClose])
     [Event.wsClose, Event.click, Event.wsError,
      Event.wsMessage WsPayload.notJson, Event.playbackEnded] (by decide)⟩

lemma run_recorderData (frags : List (List Nat)) :
    ∀ s : TabState, run s (frags.map Event.recorderData) =
      { s with chunks := s.chunks ++ frags.filter (fun f => ¬ f.length = 0) } := by
  induction frags with
  | nil => intro s; simp [run]
  | cons f rest ih =>
    intro s
    by_cases hf : f.length = 0
    · have hstep : step s (Event.recorderData f) = s := by simp [step, hf]
      calc run s ((f :: rest).map Event.recorderData)
          = run (step s (Event.recorderData f)) (rest.map Event.recorderData) := rfl
        _ = run s (rest.map Event.recorderData) := by rw [hstep]
        _ = { s with chunks := s.chunks ++ rest.filter (fun f => ¬ f.length = 0) } :=
          ih s
        _ = { s with chunks := s.chunks ++
              (f :: rest).filter (fun f => ¬ f.length = 0) } := by
          have hf2 : f = [] := List.length_eq_zero.mp hf
          simp [List.filter_cons, hf2]
    · have hstep : step s (Event.recorderData f) =
          { s with chunks := s.chunks ++ [f] } := by simp [step, hf]
      calc run s ((f :: rest).map Event.recorderData)
          = run (step s (Event.recorderData f)) (rest.map Event.recorderData) := rfl
        _ = run { s with chunks := s.chunks ++ [f] } (rest.map Event.recorderData) := by
          rw [hstep]
        _ = { s with chunks := (s.chunks ++ [f]) ++
              rest.filter (fun f => ¬ f.length = 0) } := ih _
        _ = { s with chunks := s.chunks ++
              (f :: rest).filter (fun f => ¬ f.length = 0) } := by
          have hf2 : ¬ f = [] := fun hnil => hf (by simp [hnil])
          simp [List.filter_cons, hf2]

/-- C10: for any sequence of device fragments delivered between start and
stop, the zero-size ones are discarded: the buffered chunks are exactly the
non-empty fragments in arrival order, and the finalized artifact is their
concatenation. -/
theorem C10_capture_filters_empty_fragments (frags : List (List Nat)) :
    (run initState ([Event.click, Event.micGranted] ++
        frags.map Event.recorderData ++
        [Event.click, Event.recorderStopped])).lastBlob =
      some ((frags.filter (fun f => ¬ f.length = 0)).flatten) ∧
    (run initState ([Event.click, Event.micGranted] ++
        frags.map Event.recorderData ++
        [Event.click, Event.recorderStopped])).chunks =
      frags.filter (fun f => ¬ f.length = 0) := by
  have hsplit : run initState ([Event.click, Event.micGranted] ++
        frags.map Event.recorderData ++ [Event.click, Event.recorderStopped]) =
      run (run (run initState [Event.click, Event.micGranted])
        (frags.map Event.recorderData)) [Event.click, Event.recorderStopped] := by
    simp [run, List.foldl_append]
  rw [hsplit, run_recorderData frags (run initState [Event.click, Event.micGranted])]
  simp [run, step, initState]

end VoiceAgent
